import Mathlib

/-!
Verification of the realtime turn-coordination and event-reconciliation
engine of the ai-contact-centre repository.

The development shallowly embeds, from the Python source:

* the JSON values exchanged on the telephony websocket (`Json`),
* the miss-safe dotted-path payload accessor `_get` from
  `src/api/app/agents/utils.py` (`pyGet`),
* the chat-history export `export_chat_history` from
  `src/api/app/agents/utils.py` (`exportChatHistory`),
* the three realtime event loops `handle_realtime_messages` found in
  `src/api/app/main.py` (`mainStep`), `src/api/app/agents/utils.py`
  (`utilsStep`) and `src/api/app/agents/realtime_events.py` (`reStep`),
  each as a step function over the loop state
  (`chat_history.messages`, `idx_first_msg_to_send`) producing the
  frames written to the websocket,
* the delivery plugins of `src/api/app/agents/plugins/delivery.py` and
  `src/api/app/plugins/delivery.py`,
* the teardown sequence of the `agent_connect` websocket handler in
  `src/api/app/main.py`.
-/

/-- JSON values as sent over the telephony websocket.  Integers keep their
value; a floating-point literal keeps its source lexeme, since float
semantics are out of scope. -/
inductive Json where
  | null : Json
  | bool (b : Bool) : Json
  | int (n : Int) : Json
  | float (lexeme : String) : Json
  | str (s : String) : Json
  | arr (items : List Json) : Json
  | obj (fields : List (String × Json)) : Json
deriving Repr, BEq

/-- Hex digit value of a character, if it is one. -/
def hexDigitVal (c : Char) : Option Nat :=
  if c.isDigit then some (c.toNat - 48)
  else if Char.ofNat 97 ≤ c ∧ c ≤ Char.ofNat 102 then some (c.toNat - 87)
  else if Char.ofNat 65 ≤ c ∧ c ≤ Char.ofNat 70 then some (c.toNat - 55)
  else none

/-- Whitespace characters of the JSON grammar. -/
def isJsonWs (c : Char) : Bool :=
  c = Char.ofNat 32 ∨ c = Char.ofNat 9 ∨ c = Char.ofNat 10 ∨ c = Char.ofNat 13

/-- Drop leading JSON whitespace. -/
def skipWs : List Char → List Char
  | [] => []
  | c :: cs => if isJsonWs c then skipWs cs else c :: cs

/-- Consume the body of a JSON string literal (opening quote already
consumed), returning the decoded string and the rest of the input. -/
def parseStringBody (fuel : Nat) (cs : List Char) (acc : List Char) :
    Option (String × List Char) :=
  match fuel, cs with
  | 0, _ => none
  | _, [] => none
  | fuel + 1, c :: rest =>
    if c = Char.ofNat 34 then some (String.mk acc.reverse, rest)
    else if c = Char.ofNat 92 then
      match rest with
      | [] => none
      | e :: rest2 =>
        if e = Char.ofNat 34 then parseStringBody fuel rest2 (Char.ofNat 34 :: acc)
        else if e = Char.ofNat 92 then parseStringBody fuel rest2 (Char.ofNat 92 :: acc)
        else if e = Char.ofNat 47 then parseStringBody fuel rest2 (Char.ofNat 47 :: acc)
        else if e = Char.ofNat 98 then parseStringBody fuel rest2 (Char.ofNat 8 :: acc)
        else if e = Char.ofNat 102 then parseStringBody fuel rest2 (Char.ofNat 12 :: acc)
        else if e = Char.ofNat 110 then parseStringBody fuel rest2 (Char.ofNat 10 :: acc)
        else if e = Char.ofNat 114 then parseStringBody fuel rest2 (Char.ofNat 13 :: acc)
        else if e = Char.ofNat 116 then parseStringBody fuel rest2 (Char.ofNat 9 :: acc)
        else if e = Char.ofNat 117 then
          match rest2 with
          | h1 :: h2 :: h3 :: h4 :: rest3 =>
            match hexDigitVal h1, hexDigitVal h2, hexDigitVal h3, hexDigitVal h4 with
            | some a, some b, some c3, some d =>
              parseStringBody fuel rest3
                (Char.ofNat (((a * 16 + b) * 16 + c3) * 16 + d) :: acc)
            | _, _, _, _ => none
          | _ => none
        else none
    else parseStringBody fuel rest (c :: acc)

/-- Take the longest prefix of decimal digits. -/
def takeDigits : List Char → List Char × List Char
  | [] => ([], [])
  | c :: cs =>
    if c.isDigit then
      let (ds, rest) := takeDigits cs
      (c :: ds, rest)
    else ([], c :: cs)

/-- Numeric value of a digit list. -/
def digitsToNat (ds : List Char) : Nat :=
  ds.foldl (fun acc c => acc * 10 + (c.toNat - 48)) 0

/-- Parse a JSON number token; an integer literal becomes `Json.int`, a
literal with a fraction or exponent is kept as a `Json.float` lexeme. -/
def parseNumberTok (cs : List Char) : Option (Json × List Char) :=
  let (neg, cs1) :=
    match cs with
    | c :: rest => if c = Char.ofNat 45 then (true, rest) else (false, cs)
    | [] => (false, cs)
  let (intDs, cs2) := takeDigits cs1
  if intDs.isEmpty then none
  else
    let fracPart : Option (List Char × List Char) :=
      match cs2 with
      | c :: rest =>
        if c = Char.ofNat 46 then
          let (ds, r) := takeDigits rest
          if ds.isEmpty then none else some (Char.ofNat 46 :: ds, r)
        else some ([], cs2)
      | [] => some ([], cs2)
    match fracPart with
    | none => none
    | some (fracDs, cs3) =>
      let expPart : Option (List Char × List Char) :=
        match cs3 with
        | c :: rest =>
          if c = Char.ofNat 101 ∨ c = Char.ofNat 69 then
            match rest with
            | s :: rest2 =>
              if s = Char.ofNat 43 ∨ s = Char.ofNat 45 then
                let (ds, r) := takeDigits rest2
                if ds.isEmpty then none else some (c :: s :: ds, r)
              else
                let (ds, r) := takeDigits rest
                if ds.isEmpty then none else some (c :: ds, r)
            | [] => none
          else some ([], cs3)
        | [] => some ([], cs3)
      match expPart with
      | none => none
      | some (expDs, cs4) =>
        if fracDs.isEmpty ∧ expDs.isEmpty then
          let v : Int := Int.ofNat (digitsToNat intDs)
          some (Json.int (if neg then -v else v), cs2)
        else
          some (Json.float (String.mk ((if neg then [Char.ofNat 45] else []) ++ intDs ++ fracDs ++ expDs)), cs4)

mutual

/-- Parse one JSON value. -/
def parseValue (fuel : Nat) (cs : List Char) : Option (Json × List Char) :=
  match fuel with
  | 0 => none
  | fuel + 1 =>
    match skipWs cs with
    | [] => none
    | c :: rest =>
      if c = Char.ofNat 34 then
        match parseStringBody (rest.length + 1) rest [] with
        | some (s, r) => some (Json.str s, r)
        | none => none
      else if c = Char.ofNat 123 then parseObjFields fuel rest [] true
      else if c = Char.ofNat 91 then parseArrItems fuel rest [] true
      else if c = Char.ofNat 116 then
        match rest with
        | r :: u :: e :: r2 =>
          if r = Char.ofNat 114 ∧ u = Char.ofNat 117 ∧ e = Char.ofNat 101 then
            some (Json.bool true, r2)
          else none
        | _ => none
      else if c = Char.ofNat 102 then
        match rest with
        | a :: l :: s :: e :: r2 =>
          if a = Char.ofNat 97 ∧ l = Char.ofNat 108 ∧ s = Char.ofNat 115 ∧ e = Char.ofNat 101 then
            some (Json.bool false, r2)
          else none
        | _ => none
      else if c = Char.ofNat 110 then
        match rest with
        | u :: l1 :: l2 :: r2 =>
          if u = Char.ofNat 117 ∧ l1 = Char.ofNat 108 ∧ l2 = Char.ofNat 108 then
            some (Json.null, r2)
          else none
        | _ => none
      else parseNumberTok (c :: rest)

/-- Parse the members of a JSON object after the opening brace. -/
def parseObjFields (fuel : Nat) (cs : List Char) (acc : List (String × Json))
    (first : Bool) : Option (Json × List Char) :=
  match fuel with
  | 0 => none
  | fuel + 1 =>
    match skipWs cs with
    | [] => none
    | c :: rest =>
      if c = Char.ofNat 125 ∧ (first ∨ ¬acc.isEmpty) then
        if first ∧ ¬acc.isEmpty then none else some (Json.obj acc.reverse, rest)
      else
        let afterComma :=
          if first then some (c :: rest)
          else if c = Char.ofNat 44 then some (skipWs rest) else none
        match afterComma with
        | none => none
        | some cs2 =>
          match skipWs cs2 with
          | q :: rest2 =>
            if q = Char.ofNat 34 then
              match parseStringBody (rest2.length + 1) rest2 [] with
              | some (key, r3) =>
                match skipWs r3 with
                | colon :: r4 =>
                  if colon = Char.ofNat 58 then
                    match parseValue fuel r4 with
                    | some (v, r5) => parseObjFields fuel (skipWs r5) ((key, v) :: acc) false
                    | none => none
                  else none
                | [] => none
              | none => none
            else none
          | [] => none

/-- Parse the items of a JSON array after the opening bracket. -/
def parseArrItems (fuel : Nat) (cs : List Char) (acc : List Json)
    (first : Bool) : Option (Json × List Char) :=
  match fuel with
  | 0 => none
  | fuel + 1 =>
    match skipWs cs with
    | [] => none
    | c :: rest =>
      if c = Char.ofNat 93 ∧ (first ∨ ¬acc.isEmpty) then
        if first ∧ ¬acc.isEmpty then none else some (Json.arr acc.reverse, rest)
      else
        let afterComma :=
          if first then some (c :: rest)
          else if c = Char.ofNat 44 then some rest else none
        match afterComma with
        | none => none
        | some cs2 =>
          match parseValue fuel cs2 with
          | some (v, r) => parseArrItems fuel (skipWs r) (v :: acc) false
          | none => none

end

/-- Model of Python `json.loads`: parse a complete JSON document, requiring
only whitespace to remain. -/
def jsonLoads (s : String) : Option Json :=
  match parseValue (s.length + 1) s.data with
  | some (v, rest) => if (skipWs rest).isEmpty then some v else none
  | none => none

/-! ## The miss-safe payload accessor

`_get` in `src/api/app/agents/utils.py` (lines 175-182):

```
def _get(obj, path, default=None):
    cur = obj
    for part in path.split("."):
        if cur is None:
            return default
        cur = getattr(cur, part, None)
    return cur if cur is not None else default
```

Python objects are modelled as `PyVal` trees; `PyVal.none` stands for the
Python value `None`, which is also what `getattr(cur, part, None)` yields
for a missing attribute. -/

/-- Loosely-typed Python value as seen by the payload accessor. -/
inductive PyVal where
  | none : PyVal
  | str (s : String) : PyVal
  | int (n : Int) : PyVal
  | obj (fields : List (String × PyVal)) : PyVal
deriving Repr, BEq

/-- Grouping pass of Python `str.split(sep)` for a one-character
separator, over the character list. -/
def splitCharList (sep : Char) : List Char -> List (List Char)
  | [] => [[]]
  | c :: cs =>
    match splitCharList sep cs with
    | [] => if c = sep then [[], []] else [[c]]
    | g :: gs => if c = sep then [] :: g :: gs else (c :: g) :: gs

/-- Model of Python `str.split(sep)` for a one-character separator; on the
empty string it yields `[""]`, as in Python. -/
def pySplit (sep : Char) (s : String) : List String :=
  (splitCharList sep s.data).map String.mk

/-- Test for the Python value `None` (`cur is None`). -/
def pyIsNone : PyVal → Bool
  | .none => true
  | _ => false

/-- Model of `getattr(cur, part, None)`: attribute lookup that collapses a
missing attribute (or a non-object receiver) to `None`. -/
def pyGetattr (v : PyVal) (name : String) : PyVal :=
  match v with
  | .obj fields => ((fields.find? (fun f => f.1 = name)).map Prod.snd).getD .none
  | _ => .none

/-- Body of the `for part in parts` loop of `_get`. -/
def pyGetLoop (cur : PyVal) (parts : List String) (dflt : PyVal) : PyVal :=
  match parts with
  | [] => if pyIsNone cur then dflt else cur
  | p :: rest => if pyIsNone cur then dflt else pyGetLoop (pyGetattr cur p) rest dflt

/-- The nested-lookup utility `_get(obj, path, default)`.  Total by
construction: no lookup can raise. -/
def pyGet (obj : PyVal) (path : String) (dflt : PyVal) : PyVal :=
  pyGetLoop obj (pySplit (Char.ofNat 46) path) dflt

/-- Value at a dotted path, following every attribute hop. -/
def pyResolve (v : PyVal) (parts : List String) : PyVal :=
  parts.foldl pyGetattr v

/-- Whether every value along a dotted path, the start, each hop and the
final value included, is non-`None`. -/
def pyAllNonNone (v : PyVal) (parts : List String) : Bool :=
  match parts with
  | [] => !pyIsNone v
  | p :: rest => !pyIsNone v && pyAllNonNone (pyGetattr v p) rest

/-! ## Transcript store

Semantic-kernel `ChatHistory` as used by the event loops: an ordered list
of messages, each with a role, a content string and a list of content
items.  `add_user_message` / `add_assistant_message` append a message
whose single item is the text; `add_tool_message([function_result])`
appends a `tool` message whose single item is a function-result record
(such a message has empty `content`). -/

/-- Author role of a chat message (`msg.role.value`). -/
inductive Role where
  | system
  | user
  | assistant
  | tool
deriving Repr, DecidableEq

/-- Wire value of a role, as produced by `msg.role.value`. -/
def Role.value : Role → String
  | .system => "system"
  | .user => "user"
  | .assistant => "assistant"
  | .tool => "tool"

/-- The `arguments` field of a `FunctionCallContent` item: a raw string, an
already-parsed dict, or anything else (exported as `None`). -/
inductive PyArgs where
  | argsStr (s : String) : PyArgs
  | argsDict (d : List (String × Json)) : PyArgs
  | argsOther : PyArgs
deriving Repr, BEq

/-- Content item of a chat message. -/
inductive KItem where
  | text (t : String) : KItem
  | funcCall (functionName pluginName : String) (arguments : PyArgs) : KItem
  | funcResult (functionName pluginName : String)
      (metaArguments metaUsedArguments : Json) (result : Json) : KItem
deriving Repr, BEq

/-- A chat-history message. -/
structure ChatMessage where
  role : Role
  content : String
  items : List KItem
deriving Repr, BEq

/-- Message appended by `chat_history.add_system_message`. -/
def mkSystemMessage (t : String) : ChatMessage := ⟨.system, t, [.text t]⟩

/-- Message appended by `chat_history.add_user_message`. -/
def mkUserMessage (t : String) : ChatMessage := ⟨.user, t, [.text t]⟩

/-- Message appended by `chat_history.add_assistant_message`. -/
def mkAssistantMessage (t : String) : ChatMessage := ⟨.assistant, t, [.text t]⟩

/-- Function-result payload carried by a `SendEvents.CONVERSATION_ITEM_CREATE`
event (`event.function_result`, a `FunctionResultContent`). -/
structure FunctionResultData where
  functionName : String
  pluginName : String
  metaArguments : Json
  metaUsedArguments : Json
  result : Json
deriving Repr, BEq

/-- Message appended by `chat_history.add_tool_message([function_result])`. -/
def mkToolMessage (fr : FunctionResultData) : ChatMessage :=
  ⟨.tool, "",
   [.funcResult fr.functionName fr.pluginName fr.metaArguments fr.metaUsedArguments fr.result]⟩

/-! ## Delta publisher

`export_chat_history` from `src/api/app/agents/utils.py` (lines 34-81). -/

/-- The `parsed_args` computation of `export_chat_history`: a string
argument is parsed as JSON, falling back to the raw string; a dict is kept;
anything else becomes `None`. -/
def parsedArgs : PyArgs → Json
  | .argsStr s =>
    match jsonLoads s with
    | some j => j
    | Option.none => Json.str s
  | .argsDict d => Json.obj d
  | .argsOther => Json.null

/-- The `function_calls` list collected from a message's items. -/
def messageFunctionCalls (items : List KItem) : List Json :=
  items.filterMap fun it =>
    match it with
    | .text _ => Option.none
    | .funcCall n p a =>
      some (Json.obj [("name", Json.str n), ("plugin", Json.str p), ("arguments", parsedArgs a)])
    | .funcResult n p ma mu r =>
      some (Json.obj
        [("name", Json.str n), ("plugin", Json.str p),
         ("arguments_sent", ma), ("arguments_used", mu), ("result", r)])

/-- Per-message formatting step of `export_chat_history`:
`{"role": ...}` plus `content` when the content string is truthy plus
`function_calls` when any were collected. -/
def exportMessage (m : ChatMessage) : Json :=
  let fcs := messageFunctionCalls m.items
  Json.obj
    ([("role", Json.str m.role.value)]
      ++ (if m.content = "" then [] else [("content", Json.str m.content)])
      ++ (if fcs.isEmpty then [] else [("function_calls", Json.arr fcs)]))

/-- Model of `export_chat_history(chat_history, from_index)`: formats
`chat_history.messages[from_index:]`. -/
def exportChatHistory (messages : List ChatMessage) (fromIndex : Nat) : List Json :=
  (messages.drop fromIndex).map exportMessage

/-! ## Wire frames and service events -/

/-- A frame written to the telephony websocket by the event loops. -/
inductive Frame where
  | stopAudio : Frame
  | chatHistory (data : List Json) : Frame
  | transcription (speaker : String) (text : String) (timestamp : Json) : Frame
deriving Repr, BEq

/-- Wire shape of a frame, as built by the `json.dumps` calls in the
event loops. -/
def frameJson : Frame → Json
  | .stopAudio =>
    Json.obj [("Kind", Json.str "StopAudio"), ("AudioData", Json.null), ("StopAudio", Json.obj [])]
  | .chatHistory data =>
    Json.obj [("kind", Json.str "ChatHistory"), ("data", Json.arr data)]
  | .transcription speaker text timestamp =>
    Json.obj
      [("kind", Json.str "Transcription"),
       ("data", Json.obj
          [("speaker", Json.str speaker), ("text", Json.str text), ("timestamp", timestamp)])]

/-- Whether a frame list contains a `ChatHistory` delta. -/
def hasChatHistory (out : List Frame) : Bool :=
  out.any fun f =>
    match f with
    | .chatHistory _ => true
    | _ => false

/-- Concatenation, in send order, of the `data` slices of the
`ChatHistory` frames in an output list. -/
def joinDeltas (out : List Frame) : List Json :=
  out.foldr
    (fun f acc =>
      match f with
      | .chatHistory data => data ++ acc
      | _ => acc)
    []

/-- Transcription frames of an output list. -/
def transcriptionFrames (out : List Frame) : List Frame :=
  out.filter fun f =>
    match f with
    | .transcription _ _ _ => true
    | _ => false

/-- A non-audio realtime service event, as matched on by the event loops.
String payload fields are carried already extracted: the loops read them
with `_get(se, path) or default`, so a missing or `None` field coincides
with the default (`""` for transcripts, `0` via `or 0` for a missing
`audio_start_ms`).  A `CONVERSATION_ITEM_CREATE` send event carries its
`function_result` when present. -/
inductive ServiceEvent where
  | sessionCreated
  | error (err : String)
  | inputAudioBufferCleared
  | speechStarted (audioStartMs : Option Int)
  | userTranscriptionDone (transcript : String) (audioStartMs : Option Int)
  | userTranscriptionFailed (err : String)
  | responseDone
  | assistantTranscriptDone (transcript : String)
  | conversationItemCreate (functionResult : Option FunctionResultData)
deriving Repr, BEq

/-- State threaded through one run of an event loop: the shared
`chat_history.messages` plus the local watermark `idx_first_msg_to_send`. -/
structure LoopState where
  messages : List ChatMessage
  idx : Nat
deriving Repr, BEq

/-- The synthetic assistant apology appended on an `Error` event by
`src/api/app/agents/realtime_events.py` (line 57). -/
def temporaryIssueMessage : String :=
  "I hit a temporary issue calling a tool. Let\x27s try again or continue without it."

/-- Modelled from the spec: `send_chat_history(websocket, chat_history,
idx_first_msg_to_send)` is imported by `src/api/app/agents/realtime_events.py`
from `.utils` but is absent from the source tree.  Following spec section 4.4
(Delta Publisher), it serializes `transcript[from:]` via the chat-history
export, pushes it to the socket as a single ChatHistory frame, and returns
the new watermark, the transcript length at that moment. -/
def send_chat_history (messages : List ChatMessage) (fromIndex : Nat) : Frame × Nat :=
  (Frame.chatHistory (exportChatHistory messages fromIndex), messages.length)

/-- One iteration of `handle_realtime_messages` in `src/api/app/main.py`
(lines 83-133).  Log-only branches leave the state unchanged and emit
nothing.  The `ChatHistory` flush uses the per-message export; `main.py`
imports the `sk_utils` variant, which differs from the cited
`agents/utils` export only in the argument-parsing of function-call items.
A `CONVERSATION_ITEM_CREATE` event always carries a function result in
this send path; one without is modelled as a no-op. -/
def mainStep (s : LoopState) (e : ServiceEvent) : LoopState × List Frame :=
  match e with
  | .sessionCreated => (s, [])
  | .error _ => (s, [])
  | .inputAudioBufferCleared => (s, [])
  | .speechStarted _ => (s, [Frame.stopAudio])
  | .userTranscriptionDone _ _ => (s, [])
  | .userTranscriptionFailed _ => (s, [])
  | .responseDone =>
    (⟨s.messages, s.messages.length⟩,
     [Frame.chatHistory (exportChatHistory s.messages s.idx)])
  | .assistantTranscriptDone t =>
    (⟨s.messages ++ [mkAssistantMessage t], s.idx⟩, [])
  | .conversationItemCreate fr =>
    match fr with
    | some fr => (⟨s.messages ++ [mkToolMessage fr], s.idx⟩, [])
    | Option.none => (s, [])

/-- One iteration of `handle_realtime_messages` in
`src/api/app/agents/utils.py` (lines 154-272): a user transcription is
appended only when non-empty but its live caption is always sent; an
assistant transcript is appended and captioned only when non-empty; the
`ChatHistory` delta is flushed only on `RESPONSE_DONE`. -/
def utilsStep (s : LoopState) (e : ServiceEvent) : LoopState × List Frame :=
  match e with
  | .sessionCreated => (s, [])
  | .error _ => (s, [])
  | .inputAudioBufferCleared => (s, [])
  | .speechStarted _ => (s, [Frame.stopAudio])
  | .userTranscriptionDone t ms =>
    (⟨if t = "" then s.messages else s.messages ++ [mkUserMessage t], s.idx⟩,
     [Frame.transcription "user" t (Json.int (ms.getD 0))])
  | .userTranscriptionFailed _ => (s, [])
  | .responseDone =>
    (⟨s.messages, s.messages.length⟩,
     [Frame.chatHistory (exportChatHistory s.messages s.idx)])
  | .assistantTranscriptDone t =>
    if t = "" then (s, [])
    else
      (⟨s.messages ++ [mkAssistantMessage t], s.idx⟩,
       [Frame.transcription "assistant" t Json.null])
  | .conversationItemCreate fr =>
    match fr with
    | some fr => (⟨s.messages ++ [mkToolMessage fr], s.idx⟩, [])
    | Option.none => (s, [])

/-- One iteration of `handle_realtime_messages` in
`src/api/app/agents/realtime_events.py` (lines 17-151), parameterized by
`is_development_mode`: an `Error` event appends the synthetic assistant
apology and flushes a delta through `send_chat_history`; live captions for
both speakers are gated on development mode; the delta is otherwise
flushed only on `RESPONSE_DONE`.  The embedded steps are total, so the
`except` boundary around the source loop (which would emit an `AgentError`
frame) is unreachable here. -/
def reStep (isDev : Bool) (s : LoopState) (e : ServiceEvent) : LoopState × List Frame :=
  match e with
  | .sessionCreated => (s, [])
  | .error _ =>
    let messages := s.messages ++ [mkAssistantMessage temporaryIssueMessage]
    let (frame, idx) := send_chat_history messages s.idx
    (⟨messages, idx⟩, [frame])
  | .inputAudioBufferCleared => (s, [])
  | .speechStarted _ => (s, [Frame.stopAudio])
  | .userTranscriptionDone t ms =>
    (⟨if t = "" then s.messages else s.messages ++ [mkUserMessage t], s.idx⟩,
     if isDev then [Frame.transcription "user" t (Json.int (ms.getD 0))] else [])
  | .userTranscriptionFailed _ => (s, [])
  | .responseDone =>
    let (frame, idx) := send_chat_history s.messages s.idx
    (⟨s.messages, idx⟩, [frame])
  | .assistantTranscriptDone t =>
    if t = "" then (s, [])
    else
      (⟨s.messages ++ [mkAssistantMessage t], s.idx⟩,
       if isDev then [Frame.transcription "assistant" t Json.null] else [])
  | .conversationItemCreate fr =>
    match fr with
    | some fr => (⟨s.messages ++ [mkToolMessage fr], s.idx⟩, [])
    | Option.none => (s, [])

/-- Run an event loop over a finite event sequence, collecting the frames
written to the websocket in send order. -/
def runLoop (step : LoopState → ServiceEvent → LoopState × List Frame) :
    LoopState → List ServiceEvent → LoopState × List Frame
  | s, [] => (s, [])
  | s, e :: es =>
    let (s1, out1) := step s e
    let (s2, out2) := runLoop step s1 es
    (s2, out1 ++ out2)

/-- The loop state at the start of `handle_realtime_messages`: the
watermark is initialized to `len(chat_history.messages)`. -/
def initialState (history : List ChatMessage) : LoopState :=
  ⟨history, history.length⟩

/-! ## Delivery plugins -/

/-- Python truthiness of `self.current_verified_order_number`: falsy when
unset (`None`) and also when set to the order number `0`. -/
def pyTruthyOrder : Option Int → Bool
  | Option.none => false
  | some n => !(n == 0)

namespace AgentsDelivery

/-- The `verify_identity_for_order` kernel function of
`src/api/app/agents/plugins/delivery.py` (lines 20-33): sets
`current_verified_order_number` to the given order number and returns the
verified message; the postcode and phone number are never compared against
anything (the comparisons are `TODO` comments in the source). -/
def verify_identity_for_order (st : Option Int) (order_number : Int)
    (delivery_postcode : String) (order_phone_number : Option Int) :
    String × Option Int :=
  ("Customer has been verified against order " ++ toString order_number ++
     ". Delivery actions against this order can now be performed.",
   some order_number)

/-- The `schedule_delivery` kernel function of
`src/api/app/agents/plugins/delivery.py` (lines 100-112): raises a
`ValueError` when `current_verified_order_number` is falsy, otherwise
returns the scheduling confirmation; the stored state is not modified. -/
def schedule_delivery (st : Option Int) (slot_id : String) :
    Except String String × Option Int :=
  if !pyTruthyOrder st then
    (Except.error "Please verify customer\x27s identity before scheduling a delivery.", st)
  else
    (Except.ok ("Delivery has been scheduled for slot " ++ slot_id ++ "."), st)

end AgentsDelivery

/-- Gregorian calendar date, standing in for Python `datetime.date`. -/
structure PyDate where
  year : Nat
  month : Nat
  day : Nat
deriving Repr, DecidableEq

/-- Gregorian leap-year rule. -/
def isLeapYear (y : Nat) : Bool :=
  y % 4 == 0 && (y % 100 != 0 || y % 400 == 0)

/-- Days in a month of a given year. -/
def daysInMonth (y m : Nat) : Nat :=
  if m == 2 then (if isLeapYear y then 29 else 28)
  else if m == 4 || m == 6 || m == 9 || m == 11 then 30
  else 31

/-- Model of `date.fromisoformat` on the canonical `YYYY-MM-DD` form:
zero-padded decimal fields and a calendar-valid year, month and day. -/
def dateFromIso (s : String) : Option PyDate :=
  match pySplit (Char.ofNat 45) s with
  | [ys, ms, ds] =>
    if ys.length = 4 ∧ ms.length = 2 ∧ ds.length = 2 ∧
        ys.data.all Char.isDigit ∧ ms.data.all Char.isDigit ∧ ds.data.all Char.isDigit then
      let y := digitsToNat ys.data
      let m := digitsToNat ms.data
      let d := digitsToNat ds.data
      if 1 ≤ y ∧ 1 ≤ m ∧ m ≤ 12 ∧ 1 ≤ d ∧ d ≤ daysInMonth y m then
        some ⟨y, m, d⟩
      else none
    else none
  | _ => none

/-- Successor day, with month and year rollover. -/
def addOneDay (d : PyDate) : PyDate :=
  if d.day < daysInMonth d.year d.month then ⟨d.year, d.month, d.day + 1⟩
  else if d.month < 12 then ⟨d.year, d.month + 1, 1⟩
  else ⟨d.year + 1, 1, 1⟩

/-- Model of `date + timedelta(days=n)` for non-negative `n`. -/
def addDays (d : PyDate) : Nat → PyDate
  | 0 => d
  | n + 1 => addDays (addOneDay d) n

/-- Date comparison `a <= b`. -/
def dateLe (a b : PyDate) : Bool :=
  a.year < b.year ||
    (a.year == b.year &&
      (a.month < b.month || (a.month == b.month && a.day ≤ b.day)))

/-- Date comparison `a < b`. -/
def dateLt (a b : PyDate) : Bool :=
  a.year < b.year ||
    (a.year == b.year &&
      (a.month < b.month || (a.month == b.month && a.day < b.day)))

/-- Two-digit zero-padded decimal (`{n:02d}`). -/
def pad2 (n : Nat) : String :=
  if n < 10 then "0" ++ toString n else toString n

/-- Four-digit zero-padded decimal (`%Y`). -/
def pad4 (n : Nat) : String :=
  if n < 10 then "000" ++ toString n
  else if n < 100 then "00" ++ toString n
  else if n < 1000 then "0" ++ toString n
  else toString n

/-- Date formatted as `%Y%m%d`. -/
def dateCompact (d : PyDate) : String :=
  pad4 d.year ++ pad2 d.month ++ pad2 d.day

/-- Date formatted as `%Y-%m-%d`. -/
def dateIso (d : PyDate) : String :=
  pad4 d.year ++ "-" ++ pad2 d.month ++ "-" ++ pad2 d.day

/-- Ascending insertion into a sorted list. -/
def insertSorted (x : Nat) : List Nat → List Nat
  | [] => [x]
  | y :: ys => if x ≤ y then x :: y :: ys else y :: insertSorted x ys

/-- Ascending sort (`selected_hours.sort()`). -/
def sortNats (l : List Nat) : List Nat :=
  l.foldr insertSorted []

namespace PluginsDelivery

/-- The `verify_identity` kernel function of
`src/api/app/plugins/delivery.py` (lines 16-24): identical behaviour to
the agents variant, with the identity checks left as `TODO` comments. -/
def verify_identity (st : Option Int) (order_number : Int)
    (delivery_postcode : String) (order_phone_number : Option Int) :
    String × Option Int :=
  ("Customer has been verified against order " ++ toString order_number ++
     ". Delivery actions against this order can now be performed.",
   some order_number)

/-- The `schedule_delivery` kernel function of
`src/api/app/plugins/delivery.py` (lines 26-41). -/
def schedule_delivery (st : Option Int) (slot_id : String) :
    Except String String × Option Int :=
  if !pyTruthyOrder st then
    (Except.error "Please verify customer\x27s identity before scheduling a delivery.", st)
  else
    (Except.ok ("Delivery has been scheduled for slot " ++ slot_id ++ "."), st)

/-- The inner `parse_iso_to_date` helper of
`get_available_slots_for_delivery` in `src/api/app/plugins/delivery.py`
(lines 63-71): empty input and any parse failure become `ValueError`s. -/
def parse_iso_to_date (value : String) : Except String PyDate :=
  if value = "" then Except.error "Empty date value cannot be parsed."
  else
    match dateFromIso ((pySplit (Char.ofNat 84) value).headD "") with
    | some d => Except.ok d
    | Option.none => Except.error ("Invalid date format: " ++ value)

/-- The slot-generation `while` loop of `get_available_slots_for_delivery`
(lines 95-117): walks day by day from the start date up to the end date,
capped at `max_days = 31` iterations; the per-day randomized hour choices
(`rng.choice(possible_hours, ...)`, distinct hours per day) are supplied
by the `draws` oracle and sorted ascending, and each hour yields a
`(slot_id, iso_time)` entry. -/
def genSlots (endDate : PyDate) : PyDate → List (List Nat) → Nat → List (String × String)
  | _, _, 0 => []
  | current, draws, rem + 1 =>
    if dateLe current endDate then
      (sortNats (draws.headD [])).map
          (fun h =>
            ("SLOT-" ++ dateCompact current ++ "-" ++ pad2 h ++ "00",
             dateIso current ++ "T" ++ pad2 h ++ ":00:00Z"))
        ++ genSlots endDate (addOneDay current) draws.tail rem
    else []

/-- The `get_available_slots_for_delivery` kernel function of
`src/api/app/plugins/delivery.py` (lines 43-119): requires a truthy
`current_verified_order_number`, resolves the start date (defaulting to
`today`) and the end date (defaulting to seven days later), rejects an
inverted window, and generates mock slots day by day.  `today` stands for
`date.today()` and `draws` for the random generator. -/
def get_available_slots_for_delivery (st : Option Int)
    (start_date end_date : String) (today : PyDate) (draws : List (List Nat)) :
    Except String (List (String × String)) × Option Int :=
  if !pyTruthyOrder st then
    (Except.error "Please verify customer\x27s identity before getting available delivery slots.", st)
  else
    match (if start_date ≠ "" then parse_iso_to_date start_date else Except.ok today) with
    | Except.error e => (Except.error e, st)
    | Except.ok startValue =>
      match (if end_date ≠ "" then parse_iso_to_date end_date else Except.ok (addDays startValue 7)) with
      | Except.error e => (Except.error e, st)
      | Except.ok endValue =>
        if dateLt endValue startValue then
          (Except.error "end_date must be on or after start_date", st)
        else
          (Except.ok (genSlots endValue startValue draws 31), st)

end PluginsDelivery

/-! ## Connection teardown -/

/-- Resource-release actions of the `agent_connect` websocket handler. -/
inductive TeardownStep where
  | cancelReceiveTask
  | awaitReceiveTask
  | disconnectToolPlugins
  | closeModelConnection
  | closeTelephonySocket
deriving Repr, DecidableEq

/-- Teardown sequence of `agent_connect` in `src/api/app/main.py`
(lines 223-230) once the inbound forwarding loop `from_acs_to_realtime`
returns because the telephony socket closed: the handler calls
`receive_task.cancel()` and then immediately leaves the
`async with realtime_client(...)` block, which releases the model
connection.  No `await` of the cancelled task and no further release
action appears in the handler body. -/
def agentConnectTeardown : List TeardownStep :=
  [TeardownStep.cancelReceiveTask, TeardownStep.closeModelConnection]

/-! ## Run-loop lemmas -/

theorem runLoop_cons (step : LoopState → ServiceEvent → LoopState × List Frame)
    (s : LoopState) (e : ServiceEvent) (es : List ServiceEvent) :
    runLoop step s (e :: es) =
      ((runLoop step (step s e).1 es).1,
       (step s e).2 ++ (runLoop step (step s e).1 es).2) := by
  rcases hse : step s e with ⟨s1, out1⟩
  simp [runLoop, hse]

theorem runLoop_append (step : LoopState → ServiceEvent → LoopState × List Frame)
    (es1 es2 : List ServiceEvent) : ∀ s : LoopState,
    runLoop step s (es1 ++ es2) =
      ((runLoop step (runLoop step s es1).1 es2).1,
       (runLoop step s es1).2 ++ (runLoop step (runLoop step s es1).1 es2).2) := by
  induction es1 with
  | nil => intro s; simp [runLoop]
  | cons e es ih =>
    intro s
    rw [List.cons_append, runLoop_cons, runLoop_cons, ih]
    simp

theorem joinDeltas_foldr (out : List Frame) (c : List Json) :
    out.foldr
        (fun f acc =>
          match f with
          | Frame.chatHistory data => data ++ acc
          | _ => acc)
        c
      = joinDeltas out ++ c := by
  induction out with
  | nil => simp [joinDeltas]
  | cons f fs ih =>
    cases f <;> simp [joinDeltas, List.foldr_cons, ih]

theorem joinDeltas_append (a b : List Frame) :
    joinDeltas (a ++ b) = joinDeltas a ++ joinDeltas b := by
  unfold joinDeltas
  rw [List.foldr_append, joinDeltas_foldr]
  rfl

theorem runLoop_invariant (step : LoopState → ServiceEvent → LoopState × List Frame)
    (P : LoopState → Prop) (hstep : ∀ s e, P s → P (step s e).1) :
    ∀ (es : List ServiceEvent) (s : LoopState), P s → P (runLoop step s es).1 := by
  intro es
  induction es with
  | nil => intro s h; simpa [runLoop] using h
  | cons e es ih =>
    intro s h
    rw [runLoop_cons]
    exact ih _ (hstep s e h)

theorem runLoop_idx_mono (step : LoopState → ServiceEvent → LoopState × List Frame)
    (P : LoopState → Prop) (hstep : ∀ s e, P s → P (step s e).1)
    (hmono : ∀ s e, P s → s.idx ≤ (step s e).1.idx) :
    ∀ (es : List ServiceEvent) (s : LoopState), P s → s.idx ≤ (runLoop step s es).1.idx := by
  intro es
  induction es with
  | nil => intro s _; simp [runLoop]
  | cons e es ih =>
    intro s h
    rw [runLoop_cons]
    exact le_trans (hmono s e h) (ih _ (hstep s e h))

theorem runLoop_messages_extend (step : LoopState → ServiceEvent → LoopState × List Frame)
    (hext : ∀ s e, ∃ t, (step s e).1.messages = s.messages ++ t) :
    ∀ (es : List ServiceEvent) (s : LoopState),
      ∃ t, (runLoop step s es).1.messages = s.messages ++ t := by
  intro es
  induction es with
  | nil => intro s; exact ⟨[], by simp [runLoop]⟩
  | cons e es ih =>
    intro s
    rw [runLoop_cons]
    obtain ⟨t1, h1⟩ := hext s e
    obtain ⟨t2, h2⟩ := ih (step s e).1
    exact ⟨t1 ++ t2, by rw [h2, h1, List.append_assoc]⟩


theorem mainStep_extend (s : LoopState) (e : ServiceEvent) :
    ∃ t, (mainStep s e).1.messages = s.messages ++ t := by
  cases e
  case assistantTranscriptDone t => exact ⟨[mkAssistantMessage t], rfl⟩
  case conversationItemCreate fr =>
    cases fr
    case none => exact ⟨[], by simp [mainStep]⟩
    case some fr => exact ⟨[mkToolMessage fr], rfl⟩
  all_goals exact ⟨[], by simp [mainStep]⟩

theorem utilsStep_extend (s : LoopState) (e : ServiceEvent) :
    ∃ t, (utilsStep s e).1.messages = s.messages ++ t := by
  cases e
  case userTranscriptionDone t ms =>
    refine ⟨if t = "" then [] else [mkUserMessage t], ?_⟩
    by_cases h : t = "" <;> simp [utilsStep, h]
  case assistantTranscriptDone t =>
    refine ⟨if t = "" then [] else [mkAssistantMessage t], ?_⟩
    by_cases h : t = "" <;> simp [utilsStep, h]
  case conversationItemCreate fr =>
    cases fr
    case none => exact ⟨[], by simp [utilsStep]⟩
    case some fr => exact ⟨[mkToolMessage fr], rfl⟩
  all_goals exact ⟨[], by simp [utilsStep]⟩

theorem reStep_extend (d : Bool) (s : LoopState) (e : ServiceEvent) :
    ∃ t, (reStep d s e).1.messages = s.messages ++ t := by
  cases e
  case error err => exact ⟨[mkAssistantMessage temporaryIssueMessage], rfl⟩
  case userTranscriptionDone t ms =>
    refine ⟨if t = "" then [] else [mkUserMessage t], ?_⟩
    by_cases h : t = "" <;> simp [reStep, h]
  case assistantTranscriptDone t =>
    refine ⟨if t = "" then [] else [mkAssistantMessage t], ?_⟩
    by_cases h : t = "" <;> simp [reStep, h]
  case conversationItemCreate fr =>
    cases fr
    case none => exact ⟨[], by simp [reStep]⟩
    case some fr => exact ⟨[mkToolMessage fr], rfl⟩
  all_goals exact ⟨[], by simp [reStep]⟩

theorem mainStep_flushIdx (s : LoopState) (e : ServiceEvent) :
    (mainStep s e).1.idx =
      if hasChatHistory (mainStep s e).2 then (mainStep s e).1.messages.length
      else s.idx := by
  cases e
  case conversationItemCreate fr => cases fr <;> simp [mainStep, hasChatHistory]
  all_goals simp [mainStep, hasChatHistory]

theorem utilsStep_flushIdx (s : LoopState) (e : ServiceEvent) :
    (utilsStep s e).1.idx =
      if hasChatHistory (utilsStep s e).2 then (utilsStep s e).1.messages.length
      else s.idx := by
  cases e
  case userTranscriptionDone t ms =>
    by_cases h : t = "" <;> simp [utilsStep, hasChatHistory, h]
  case assistantTranscriptDone t =>
    by_cases h : t = "" <;> simp [utilsStep, hasChatHistory, h]
  case conversationItemCreate fr => cases fr <;> simp [utilsStep, hasChatHistory]
  all_goals simp [utilsStep, hasChatHistory]

theorem reStep_flushIdx (d : Bool) (s : LoopState) (e : ServiceEvent) :
    (reStep d s e).1.idx =
      if hasChatHistory (reStep d s e).2 then (reStep d s e).1.messages.length
      else s.idx := by
  cases e
  case error err => simp [reStep, hasChatHistory, send_chat_history]
  case userTranscriptionDone t ms =>
    cases d <;> by_cases h : t = "" <;> simp [reStep, hasChatHistory, h]
  case assistantTranscriptDone t =>
    cases d <;> by_cases h : t = "" <;> simp [reStep, hasChatHistory, h]
  case conversationItemCreate fr => cases fr <;> simp [reStep, hasChatHistory]
  all_goals simp [reStep, hasChatHistory, send_chat_history]

theorem mainStep_mono (s : LoopState) (e : ServiceEvent)
    (h : s.idx ≤ s.messages.length) : s.idx ≤ (mainStep s e).1.idx := by
  cases e
  case responseDone => simpa [mainStep] using h
  case conversationItemCreate fr => cases fr <;> simp [mainStep]
  all_goals simp [mainStep]

theorem utilsStep_mono (s : LoopState) (e : ServiceEvent)
    (h : s.idx ≤ s.messages.length) : s.idx ≤ (utilsStep s e).1.idx := by
  cases e
  case responseDone => simpa [utilsStep] using h
  case userTranscriptionDone t ms =>
    by_cases ht : t = "" <;> simp [utilsStep, ht]
  case assistantTranscriptDone t =>
    by_cases ht : t = "" <;> simp [utilsStep, ht]
  case conversationItemCreate fr => cases fr <;> simp [utilsStep]
  all_goals simp [utilsStep]

theorem reStep_mono (d : Bool) (s : LoopState) (e : ServiceEvent)
    (h : s.idx ≤ s.messages.length) : s.idx ≤ (reStep d s e).1.idx := by
  cases e
  case error err =>
    simp [reStep, send_chat_history]
    omega
  case responseDone => simpa [reStep, send_chat_history] using h
  case userTranscriptionDone t ms =>
    by_cases ht : t = "" <;> simp [reStep, ht]
  case assistantTranscriptDone t =>
    by_cases ht : t = "" <;> simp [reStep, ht]
  case conversationItemCreate fr => cases fr <;> simp [reStep]
  all_goals simp [reStep]

theorem mainStep_inv (s : LoopState) (e : ServiceEvent)
    (h : s.idx ≤ s.messages.length) :
    (mainStep s e).1.idx ≤ (mainStep s e).1.messages.length := by
  obtain ⟨t, ht⟩ := mainStep_extend s e
  rw [mainStep_flushIdx s e]
  split
  · exact le_refl _
  · rw [ht]
    simp
    exact le_trans h (Nat.le_add_right _ _)

theorem utilsStep_inv (s : LoopState) (e : ServiceEvent)
    (h : s.idx ≤ s.messages.length) :
    (utilsStep s e).1.idx ≤ (utilsStep s e).1.messages.length := by
  obtain ⟨t, ht⟩ := utilsStep_extend s e
  rw [utilsStep_flushIdx s e]
  split
  · exact le_refl _
  · rw [ht]
    simp
    exact le_trans h (Nat.le_add_right _ _)

theorem reStep_inv (d : Bool) (s : LoopState) (e : ServiceEvent)
    (h : s.idx ≤ s.messages.length) :
    (reStep d s e).1.idx ≤ (reStep d s e).1.messages.length := by
  obtain ⟨t, ht⟩ := reStep_extend d s e
  rw [reStep_flushIdx d s e]
  split
  · exact le_refl _
  · rw [ht]
    simp
    exact le_trans h (Nat.le_add_right _ _)

/-- Loop state reached from an initial chat history after processing a
sequence of events. -/
def stateAfter (step : LoopState → ServiceEvent → LoopState × List Frame)
    (history : List ChatMessage) (es : List ServiceEvent) : LoopState :=
  (runLoop step (initialState history) es).1

/-- C2: along any run of any of the three `handle_realtime_messages` loops,
started as in the source with `idx_first_msg_to_send = len(chat_history.messages)`,
the watermark never decreases at any step, and a step that publishes a
`ChatHistory` flush sets it to the transcript length at that moment, while
a step without a flush leaves it unchanged. -/
theorem watermark_monotone (h0 : List ChatMessage) (es : List ServiceEvent)
    (e : ServiceEvent) (d : Bool) :
    ((stateAfter mainStep h0 es).idx ≤ (mainStep (stateAfter mainStep h0 es) e).1.idx
      ∧ (mainStep (stateAfter mainStep h0 es) e).1.idx
          = (if hasChatHistory (mainStep (stateAfter mainStep h0 es) e).2
             then (mainStep (stateAfter mainStep h0 es) e).1.messages.length
             else (stateAfter mainStep h0 es).idx))
    ∧ ((stateAfter utilsStep h0 es).idx ≤ (utilsStep (stateAfter utilsStep h0 es) e).1.idx
      ∧ (utilsStep (stateAfter utilsStep h0 es) e).1.idx
          = (if hasChatHistory (utilsStep (stateAfter utilsStep h0 es) e).2
             then (utilsStep (stateAfter utilsStep h0 es) e).1.messages.length
             else (stateAfter utilsStep h0 es).idx))
    ∧ ((stateAfter (reStep d) h0 es).idx ≤ (reStep d (stateAfter (reStep d) h0 es) e).1.idx
      ∧ (reStep d (stateAfter (reStep d) h0 es) e).1.idx
          = (if hasChatHistory (reStep d (stateAfter (reStep d) h0 es) e).2
             then (reStep d (stateAfter (reStep d) h0 es) e).1.messages.length
             else (stateAfter (reStep d) h0 es).idx)) := by
  have hmain : (stateAfter mainStep h0 es).idx ≤ (stateAfter mainStep h0 es).messages.length :=
    runLoop_invariant mainStep (fun s => s.idx ≤ s.messages.length)
      (fun s e h => mainStep_inv s e h) es (initialState h0) (le_refl _)
  have hutils : (stateAfter utilsStep h0 es).idx ≤ (stateAfter utilsStep h0 es).messages.length :=
    runLoop_invariant utilsStep (fun s => s.idx ≤ s.messages.length)
      (fun s e h => utilsStep_inv s e h) es (initialState h0) (le_refl _)
  have hre : (stateAfter (reStep d) h0 es).idx ≤ (stateAfter (reStep d) h0 es).messages.length :=
    runLoop_invariant (reStep d) (fun s => s.idx ≤ s.messages.length)
      (fun s e h => reStep_inv d s e h) es (initialState h0) (le_refl _)
  exact ⟨⟨mainStep_mono _ _ hmain, mainStep_flushIdx _ _⟩,
         ⟨utilsStep_mono _ _ hutils, utilsStep_flushIdx _ _⟩,
         ⟨reStep_mono d _ _ hre, reStep_flushIdx d _ _⟩⟩

/-- C5: a SpeechStarted event makes each of the three event loops send
exactly the StopAudio control frame and nothing else, leaving the state
untouched; the frame's wire shape carries the capitalized keys `Kind`,
`AudioData` (null) and `StopAudio` (empty object). -/
theorem speech_started_stop_audio (d : Bool) (s : LoopState) (ms : Option Int) :
    mainStep s (ServiceEvent.speechStarted ms) = (s, [Frame.stopAudio]) ∧
    utilsStep s (ServiceEvent.speechStarted ms) = (s, [Frame.stopAudio]) ∧
    reStep d s (ServiceEvent.speechStarted ms) = (s, [Frame.stopAudio]) ∧
    frameJson Frame.stopAudio =
      Json.obj [("Kind", Json.str "StopAudio"), ("AudioData", Json.null),
                ("StopAudio", Json.obj [])] :=
  ⟨rfl, rfl, rfl, rfl⟩

/-- C8: the nested-lookup utility `_get` returns the value at the dotted
path when every value along the path exists and is non-`None`, and returns
the given default otherwise; being a total function of its arguments, it
can never raise. -/
theorem get_miss_safe (obj : PyVal) (path : String) (dflt : PyVal) :
    pyGet obj path dflt =
      if pyAllNonNone obj (pySplit (Char.ofNat 46) path) then
        pyResolve obj (pySplit (Char.ofNat 46) path)
      else dflt := by
  unfold pyGet
  generalize pySplit (Char.ofNat 46) path = parts
  induction parts generalizing obj with
  | nil => cases hobj : pyIsNone obj <;> simp [pyGetLoop, pyAllNonNone, pyResolve, hobj]
  | cons p rest ih =>
    cases hobj : pyIsNone obj <;> simp [pyGetLoop, pyAllNonNone, pyResolve, hobj, ih]

/-- C9: at the concrete failing input, the inbound loop returning after the
telephony socket closed, the `agent_connect` teardown cancels the receive
task and immediately releases the model connection: no await of the
cancelled task (and no tool-plugin disconnect or websocket close) occurs
before resources are released. -/
theorem agent_connect_no_await_teardown :
    agentConnectTeardown
        = [TeardownStep.cancelReceiveTask, TeardownStep.closeModelConnection] ∧
    TeardownStep.awaitReceiveTask ∉ agentConnectTeardown ∧
    TeardownStep.disconnectToolPlugins ∉ agentConnectTeardown ∧
    TeardownStep.closeTelephonySocket ∉ agentConnectTeardown := by decide

/-- C3 (amended): in the `agents/realtime_events.py` loop, an Error event
appends the synthetic temporary-issue assistant message, publishes a
`ChatHistory` delta covering it, advances the watermark past it, and the
loop keeps consuming the remaining events. -/
theorem error_event_recovery (d : Bool) (s : LoopState) (err : String)
    (rest : List ServiceEvent) :
    (reStep d s (ServiceEvent.error err)).1.messages
        = s.messages ++ [mkAssistantMessage temporaryIssueMessage] ∧
    (reStep d s (ServiceEvent.error err)).2
        = [Frame.chatHistory
            (exportChatHistory (s.messages ++ [mkAssistantMessage temporaryIssueMessage]) s.idx)] ∧
    (reStep d s (ServiceEvent.error err)).1.idx = s.messages.length + 1 ∧
    runLoop (reStep d) s (ServiceEvent.error err :: rest)
        = ((runLoop (reStep d) (reStep d s (ServiceEvent.error err)).1 rest).1,
           (reStep d s (ServiceEvent.error err)).2
             ++ (runLoop (reStep d) (reStep d s (ServiceEvent.error err)).1 rest).2) := by
  refine ⟨rfl, rfl, ?_, runLoop_cons (reStep d) s _ rest⟩
  simp [reStep, send_chat_history]

/-- C3 counterexample: the `handle_realtime_messages` loop in
`src/api/app/main.py`, fed the Error event of the claim's scenario, appends
no synthetic assistant message and publishes no delta; it only logs. -/
theorem error_event_counterexample :
    (mainStep (initialState []) (ServiceEvent.error "rate_limited")).1.messages = [] ∧
    (mainStep (initialState []) (ServiceEvent.error "rate_limited")).2 = [] :=
  ⟨rfl, rfl⟩

/-- C4 (amended): in the two agents event loops, a user entry with the
transcribed text is appended exactly when the text is non-empty, and an
empty transcription leaves the state untouched and publishes no
`ChatHistory` delta (a live caption frame may still be sent). -/
theorem empty_transcription_no_mutation (d : Bool) (s : LoopState)
    (t : String) (ms : Option Int) :
    ((reStep d s (ServiceEvent.userTranscriptionDone t ms)).1.messages
        = if t = "" then s.messages else s.messages ++ [mkUserMessage t]) ∧
    (reStep d s (ServiceEvent.userTranscriptionDone "" ms)).1 = s ∧
    hasChatHistory (reStep d s (ServiceEvent.userTranscriptionDone "" ms)).2 = false ∧
    ((utilsStep s (ServiceEvent.userTranscriptionDone t ms)).1.messages
        = if t = "" then s.messages else s.messages ++ [mkUserMessage t]) ∧
    (utilsStep s (ServiceEvent.userTranscriptionDone "" ms)).1 = s ∧
    hasChatHistory (utilsStep s (ServiceEvent.userTranscriptionDone "" ms)).2 = false := by
  refine ⟨rfl, by simp [reStep], ?_, rfl, by simp [utilsStep], rfl⟩
  cases d <;> rfl

/-- C4 counterexample: the `handle_realtime_messages` loop in
`src/api/app/main.py`, fed a UserTranscriptionDone event with the
non-empty text of the claim's scenario, appends no user entry at all; it
only logs the transcript. -/
theorem user_transcription_counterexample :
    (mainStep (initialState [])
        (ServiceEvent.userTranscriptionDone "I need apples" Option.none)).1.messages = [] ∧
    (mainStep (initialState [])
        (ServiceEvent.userTranscriptionDone "I need apples" Option.none)).2 = [] :=
  ⟨rfl, rfl⟩

/-- C6 (amended): in the `agents/realtime_events.py` loop, Transcription
caption frames for the user and for the assistant alike are emitted only
in development mode, the assistant caption additionally only for a
non-empty transcript; in the `agents/utils.py` loop, the user caption is
emitted unconditionally and the assistant caption whenever the transcript
is non-empty. -/
theorem caption_gating (d : Bool) (s : LoopState) (t : String) (ms : Option Int) :
    (transcriptionFrames (reStep d s (ServiceEvent.userTranscriptionDone t ms)).2
        = if d then [Frame.transcription "user" t (Json.int (ms.getD 0))] else []) ∧
    (transcriptionFrames (reStep d s (ServiceEvent.assistantTranscriptDone t)).2
        = if d ∧ t ≠ "" then [Frame.transcription "assistant" t Json.null] else []) ∧
    (transcriptionFrames (utilsStep s (ServiceEvent.userTranscriptionDone t ms)).2
        = [Frame.transcription "user" t (Json.int (ms.getD 0))]) ∧
    (transcriptionFrames (utilsStep s (ServiceEvent.assistantTranscriptDone t)).2
        = if t = "" then [] else [Frame.transcription "assistant" t Json.null]) := by
  refine ⟨?_, ?_, ?_, ?_⟩
  · cases d <;> simp [reStep, transcriptionFrames]
  · cases d <;> by_cases h : t = "" <;> simp [reStep, transcriptionFrames, h]
  · simp [utilsStep, transcriptionFrames]
  · by_cases h : t = "" <;> simp [utilsStep, transcriptionFrames, h]

/-- C6 counterexample: in the `agents/realtime_events.py` loop outside
development mode, a non-empty assistant transcript is appended to the
transcript but no Transcription caption frame is emitted, although the
claim says assistant captions are always emitted. -/
theorem assistant_caption_counterexample :
    (reStep false (initialState [])
        (ServiceEvent.assistantTranscriptDone "Hello there")).1.messages
      = [mkAssistantMessage "Hello there"] ∧
    (reStep false (initialState [])
        (ServiceEvent.assistantTranscriptDone "Hello there")).2 = [] :=
  ⟨rfl, rfl⟩

theorem export_delta_glue (msgs t : List ChatMessage) (i k : Nat)
    (hi : i ≤ msgs.length) (hk : msgs.length ≤ k) :
    (msgs.drop i).map exportMessage
        ++ (((msgs ++ t).take k).drop msgs.length).map exportMessage
      = (((msgs ++ t).take k).drop i).map exportMessage := by
  rw [List.take_append_eq_append_take, List.take_of_length_le hk,
      List.drop_left, List.drop_append_eq_append_drop,
      Nat.sub_eq_zero_of_le hi, List.drop_zero, List.map_append]

theorem mainStep_deltas_aux : ∀ (es : List ServiceEvent) (s : LoopState),
    s.idx ≤ s.messages.length →
    joinDeltas (runLoop mainStep s es).2
      = (((runLoop mainStep s es).1.messages.take (runLoop mainStep s es).1.idx).drop
          s.idx).map exportMessage := by
  intro es
  induction es with
  | nil =>
    intro s h
    have hlen : (s.messages.take s.idx).length ≤ s.idx := by
      rw [List.length_take]
      exact Nat.min_le_left _ _
    simp [runLoop, joinDeltas, List.drop_eq_nil_of_le hlen]
  | cons e es ih =>
    intro s h
    rw [runLoop_cons, joinDeltas_append]
    cases e
    case sessionCreated => simpa [mainStep, joinDeltas] using ih s h
    case error err => simpa [mainStep, joinDeltas] using ih s h
    case inputAudioBufferCleared => simpa [mainStep, joinDeltas] using ih s h
    case speechStarted ms => simpa [mainStep, joinDeltas] using ih s h
    case userTranscriptionDone t ms => simpa [mainStep, joinDeltas] using ih s h
    case userTranscriptionFailed err => simpa [mainStep, joinDeltas] using ih s h
    case assistantTranscriptDone t =>
      have h2 : s.idx ≤ (s.messages ++ [mkAssistantMessage t]).length := by
        rw [List.length_append]
        exact le_trans h (Nat.le_add_right _ _)
      simpa [mainStep, joinDeltas]
        using ih ⟨s.messages ++ [mkAssistantMessage t], s.idx⟩ h2
    case conversationItemCreate fr =>
      cases fr
      case none => simpa [mainStep, joinDeltas] using ih s h
      case some fr =>
        have h2 : s.idx ≤ (s.messages ++ [mkToolMessage fr]).length := by
          rw [List.length_append]
          exact le_trans h (Nat.le_add_right _ _)
        simpa [mainStep, joinDeltas]
          using ih ⟨s.messages ++ [mkToolMessage fr], s.idx⟩ h2
    case responseDone =>
      have hP : ∀ s2 e2, (fun s3 : LoopState => s3.idx ≤ s3.messages.length) s2 →
          (fun s3 : LoopState => s3.idx ≤ s3.messages.length) (mainStep s2 e2).1 :=
        fun s2 e2 hh => mainStep_inv s2 e2 hh
      have hflushed : (LoopState.mk s.messages s.messages.length).idx
          ≤ (LoopState.mk s.messages s.messages.length).messages.length := le_refl _
      have hlo := runLoop_idx_mono mainStep (fun s3 => s3.idx ≤ s3.messages.length) hP
        (fun s2 e2 hh => mainStep_mono s2 e2 hh) es ⟨s.messages, s.messages.length⟩ hflushed
      have hhi := runLoop_invariant mainStep (fun s3 => s3.idx ≤ s3.messages.length) hP
        es ⟨s.messages, s.messages.length⟩ hflushed
      obtain ⟨t, ht⟩ := runLoop_messages_extend mainStep mainStep_extend es
        ⟨s.messages, s.messages.length⟩
      have hmid := ih ⟨s.messages, s.messages.length⟩ hflushed
      simp only [mainStep, joinDeltas, List.foldr_cons, List.foldr_nil,
        List.append_nil] at hmid ⊢
      rw [hmid, exportChatHistory]
      rw [ht]
      exact export_delta_glue s.messages t s.idx
        (runLoop mainStep ⟨s.messages, s.messages.length⟩ es).1.idx h hlo

/-- C1 (amended): for the `main.py` loop, concatenating the `data` slices
of the published `ChatHistory` frames in order reconstructs, with no gaps
and no duplicates and in append order, exactly the exported prefix of the
final transcript up to the final watermark, the entries before the initial
index excluded; entries appended after the last flush are not yet covered,
so a run extended by one final `ResponseDone` flush reconstructs the whole
appended transcript. -/
theorem deltas_reconstruct_transcript (h0 : List ChatMessage) (es : List ServiceEvent) :
    joinDeltas (runLoop mainStep (initialState h0) es).2
      = exportChatHistory
          ((runLoop mainStep (initialState h0) es).1.messages.take
            (runLoop mainStep (initialState h0) es).1.idx)
          h0.length ∧
    joinDeltas (runLoop mainStep (initialState h0) (es ++ [ServiceEvent.responseDone])).2
      = exportChatHistory
          (runLoop mainStep (initialState h0) (es ++ [ServiceEvent.responseDone])).1.messages
          h0.length := by
  constructor
  · have h := mainStep_deltas_aux es (initialState h0) (le_refl _)
    rw [h, exportChatHistory]
    rfl
  · have h := mainStep_deltas_aux (es ++ [ServiceEvent.responseDone]) (initialState h0) (le_refl _)
    have hfinal : (runLoop mainStep (initialState h0) (es ++ [ServiceEvent.responseDone])).1.idx
        = (runLoop mainStep (initialState h0) (es ++ [ServiceEvent.responseDone])).1.messages.length := by
      rw [runLoop_append]
      simp [runLoop, mainStep]
    rw [h, hfinal, List.take_length, exportChatHistory]
    rfl

/-- C1 counterexample: a run whose last appended entry is never flushed.
After a single non-empty assistant transcript with no following
`ResponseDone`, no delta at all has been published, so the concatenation of
published deltas is empty while the transcript gained one entry: the claim
as stated fails for this event sequence. -/
theorem unflushed_tail_counterexample :
    joinDeltas
        (runLoop mainStep (initialState [mkSystemMessage "You are a helpful support agent."])
          [ServiceEvent.assistantTranscriptDone "Hello!"]).2
      = [] ∧
    exportChatHistory
        (runLoop mainStep (initialState [mkSystemMessage "You are a helpful support agent."])
          [ServiceEvent.assistantTranscriptDone "Hello!"]).1.messages
        [mkSystemMessage "You are a helpful support agent."].length
      = [Json.obj [("role", Json.str "assistant"), ("content", Json.str "Hello!")]] ∧
    joinDeltas
        (runLoop mainStep (initialState [mkSystemMessage "You are a helpful support agent."])
          [ServiceEvent.assistantTranscriptDone "Hello!"]).2
      ≠ exportChatHistory
          (runLoop mainStep (initialState [mkSystemMessage "You are a helpful support agent."])
            [ServiceEvent.assistantTranscriptDone "Hello!"]).1.messages
          [mkSystemMessage "You are a helpful support agent."].length := by
  refine ⟨rfl, rfl, ?_⟩
  intro hcontra
  rw [show joinDeltas
        (runLoop mainStep (initialState [mkSystemMessage "You are a helpful support agent."])
          [ServiceEvent.assistantTranscriptDone "Hello!"]).2 = [] from rfl] at hcontra
  rw [show exportChatHistory
        (runLoop mainStep (initialState [mkSystemMessage "You are a helpful support agent."])
          [ServiceEvent.assistantTranscriptDone "Hello!"]).1.messages
        [mkSystemMessage "You are a helpful support agent."].length
      = [Json.obj [("role", Json.str "assistant"), ("content", Json.str "Hello!")]] from rfl] at hcontra
  exact List.noConfusion hcontra

/-- C7 (amended): the delivery actions fail with their verification error
whenever `current_verified_order_number` is falsy, which covers both the
unset state and a verified order number of 0; after a verification with a
nonzero order number, `schedule_delivery` returns exactly
`Delivery has been scheduled for slot {slot_id}.` and leaves the
verification state unchanged; `get_available_slots_for_delivery` can,
even when verified, also fail on an unparseable date, so its failures are
not confined to the unverified state. -/
theorem delivery_precondition_guards (st : Option Int) (slot pc : String)
    (order : Int) (ph : Option Int) (sd ed : String) (today : PyDate)
    (draws : List (List Nat)) (h : order ≠ 0) :
    AgentsDelivery.schedule_delivery Option.none slot
        = (Except.error "Please verify customer\x27s identity before scheduling a delivery.",
           Option.none) ∧
    AgentsDelivery.schedule_delivery
        (AgentsDelivery.verify_identity_for_order st order pc ph).2 slot
        = (Except.ok ("Delivery has been scheduled for slot " ++ slot ++ "."), some order) ∧
    PluginsDelivery.get_available_slots_for_delivery Option.none sd ed today draws
        = (Except.error "Please verify customer\x27s identity before getting available delivery slots.",
           Option.none) ∧
    (PluginsDelivery.get_available_slots_for_delivery (some order) "not-a-date" "" today draws).1
        = Except.error "Invalid date format: not-a-date" := by
  have htruthy : pyTruthyOrder (some order) = true := by
    simp [pyTruthyOrder, h]
  refine ⟨rfl, ?_, rfl, ?_⟩
  · simp [AgentsDelivery.schedule_delivery, AgentsDelivery.verify_identity_for_order, htruthy]
  · simp [PluginsDelivery.get_available_slots_for_delivery, htruthy]
    rfl

/-- C7 witness at a concrete verified nonzero order. -/
theorem delivery_precondition_guards_witness :
    AgentsDelivery.schedule_delivery
        (AgentsDelivery.verify_identity_for_order Option.none 42 "N1 9GU" Option.none).2 "7"
      = (Except.ok ("Delivery has been scheduled for slot " ++ "7" ++ "."), some 42) :=
  (delivery_precondition_guards Option.none "7" "N1 9GU" 42 Option.none "" ""
    ⟨2026, 1, 1⟩ [] (by decide)).2.1

/-- C7 counterexample: verifying order number 0 sets
`current_verified_order_number` (so identity is no longer unset), yet
`schedule_delivery` still fails with the verification error, because the
guard tests Python truthiness rather than unsetness. -/
theorem verified_zero_order_counterexample :
    (AgentsDelivery.verify_identity_for_order Option.none 0 "EC1A 1BB" (some 447700900123)).2
        = some 0 ∧
    (AgentsDelivery.schedule_delivery
        (AgentsDelivery.verify_identity_for_order Option.none 0 "EC1A 1BB" (some 447700900123)).2
        "3").1
      = Except.error "Please verify customer\x27s identity before scheduling a delivery." :=
  ⟨rfl, rfl⟩

/-- C10 (amended): `verify_identity_for_order` / `verify_identity` succeed
unconditionally, independent of the prior state, the supplied postcode and
the supplied phone number (nothing is compared), set
`current_verified_order_number` to the given order number and return the
verified message; a single call therefore enables the precondition-guarded
delivery actions exactly when the order number is nonzero, since Python
truthiness treats a stored 0 as unverified. -/
theorem verify_identity_unconditional (st st2 : Option Int) (order : Int)
    (pc pc2 : String) (ph ph2 : Option Int) (slot : String) :
    AgentsDelivery.verify_identity_for_order st order pc ph
        = AgentsDelivery.verify_identity_for_order st2 order pc2 ph2 ∧
    AgentsDelivery.verify_identity_for_order st order pc ph
        = ("Customer has been verified against order " ++ toString order ++
             ". Delivery actions against this order can now be performed.", some order) ∧
    PluginsDelivery.verify_identity st order pc ph
        = ("Customer has been verified against order " ++ toString order ++
             ". Delivery actions against this order can now be performed.", some order) ∧
    (AgentsDelivery.schedule_delivery
        (AgentsDelivery.verify_identity_for_order st order pc ph).2 slot).1
        = (if order == 0 then
             Except.error "Please verify customer\x27s identity before scheduling a delivery."
           else Except.ok ("Delivery has been scheduled for slot " ++ slot ++ ".")) := by
  refine ⟨rfl, rfl, rfl, ?_⟩
  by_cases h : order = 0
  · simp [AgentsDelivery.schedule_delivery, AgentsDelivery.verify_identity_for_order,
      pyTruthyOrder, h]
  · simp [AgentsDelivery.schedule_delivery, AgentsDelivery.verify_identity_for_order,
      pyTruthyOrder, h]

/-- C10 counterexample: a single `verify_identity` call with order number 0
returns the verified message and sets the state, yet the subsequent
precondition-guarded `get_available_slots_for_delivery` is not enabled. -/
theorem verify_zero_order_counterexample :
    (PluginsDelivery.verify_identity Option.none 0 "SW1A 1AA" Option.none).1
        = "Customer has been verified against order 0. Delivery actions against this order can now be performed." ∧
    (PluginsDelivery.get_available_slots_for_delivery
        (PluginsDelivery.verify_identity Option.none 0 "SW1A 1AA" Option.none).2
        "" "" ⟨2026, 10, 12⟩ []).1
      = Except.error "Please verify customer\x27s identity before getting available delivery slots." :=
  ⟨rfl, rfl⟩
